import Mathlib

/-!
Verification development for the OnCallAgent repository
(`loadbalancer.py` and `process_manager.py`), a round-robin HTTP load
balancer plus a process orchestrator for backend instances.

The Python source is shallowly embedded: registry state and router state
are passed explicitly, OS-level effects (TCP port probes, process spawns,
health probes, the clock) are supplied by an explicit environment record,
and Python exceptions become `Except` errors.
-/

namespace OnCallAgent

/-! ## Embedding of `loadbalancer.py` -/

/-- Errors the router can signal from `pick_primary_and_alt`.
`zeroDivisionError` models Python's `ZeroDivisionError` raised by
`__rr_idx % n` when `n = 0`; `noBackendsAvailable` is the error named by
the specification's taxonomy (the source never raises it — it is declared
here only so that claims mentioning it can be stated). -/
inductive RouterError where
  | zeroDivisionError
  | noBackendsAvailable
deriving DecidableEq

/-- Embedding of `pick_primary_and_alt` (loadbalancer.py lines 29-40).

```
n = len(backends)
async with __rr_lock:
    primary = backends[__rr_idx % n]
    __rr_idx = (__rr_idx + 1) % n
    alt = backends[__rr_idx % n] if n > 1 else None
return primary, alt
```

The global cursor `__rr_idx` is passed and returned explicitly.  When
`n = 0`, Python's `% 0` raises `ZeroDivisionError`; otherwise every index
taken is `< n`, so list indexing never fails and `l[i]!` returns the same
element as Python's `backends[i]`. -/
def pick_primary_and_alt (backends : List String) (rr_idx : Nat) :
    Except RouterError (String × Option String × Nat) :=
  let n := backends.length
  if n = 0 then
    Except.error RouterError.zeroDivisionError
  else
    let primary := backends[rr_idx % n]!
    let idx2 := (rr_idx + 1) % n
    let alt := if 1 < n then some (backends[idx2 % n]!) else none
    Except.ok (primary, alt, idx2)

/-- A sequence of `N` sequential `pick_primary_and_alt` calls against a
fixed backend list, starting from cursor `c`: returns the list of primaries
in call order and the final cursor.  A call that raises stops the run. -/
def run_picks (backends : List String) : Nat → Nat → List String × Nat
  | c, 0 => ([], c)
  | c, n + 1 =>
    match pick_primary_and_alt backends c with
    | Except.error _ => ([], c)
    | Except.ok x =>
      let rest := run_picks backends x.2.2 n
      (x.1 :: rest.1, rest.2)

/-- Outcome of one poll of the orchestrator's `/backends` endpoint as seen
by the refresher loop (loadbalancer.py lines 50-58): `failure` covers any
exception (connection error, timeout, malformed JSON body — all caught by
the bare `except Exception: pass`); `response status body` is a completed
HTTP response, where `body` is the parsed value of the JSON object's
`"backends"` key (`none` when the key is absent or null). -/
inductive PollOutcome where
  | failure
  | response (status : Nat) (body : Option (List String))

/-- Embedding of one tick of the refresher loop body
(loadbalancer.py lines 52-57):

```
r = await app.state.client.get(f"{MANAGER_URL}/backends")
if r.status_code == 200:
    app.state.backends = r.json().get("backends", app.state.backends) or app.state.backends
except Exception:
    pass
```

`cur` is `app.state.backends` before the tick; the result is its value
after the tick.  `.get("backends", cur)` keeps `cur` when the key is
missing, and the trailing `or cur` keeps `cur` when the value is falsy
(empty list or null). -/
def refresh_tick (cur : List String) (r : PollOutcome) : List String :=
  match r with
  | PollOutcome.failure => cur
  | PollOutcome.response status body =>
    if status = 200 then
      match body with
      | none => cur
      | some bs => if bs = [] then cur else bs
    else cur

/-! ## Embedding of `process_manager.py` -/

/-- Default port range of the process manager: `PM_BASE_PORT` default. -/
def BASE_PORT : Nat := 8001

/-- Default port range of the process manager: `PM_MAX_PORT` default. -/
def MAX_PORT : Nat := 8010

/-- Embedding of the `Instance` dataclass (process_manager.py lines 21-27).
The opaque `subprocess.Popen` handle is represented by its currently
observed status: `poll = none` models `process.poll() is None` (still
running), `poll = some code` models an exited process with that return
code.  `started_at` is an abstract clock reading. -/
structure Instance where
  port : Nat
  pid : Nat
  service : String
  started_at : Nat
  poll : Option Int
deriving DecidableEq

/-- The global registry `instances: Dict[int, Instance]` (key = port),
as an association list in dict insertion order with unique keys. -/
abbrev Registry := List (Nat × Instance)

/-- The outside world as observed by one control-plane call: the OS port
probe `port_free` (process_manager.py lines 36-43), the pid the OS assigns
to a process spawned on a given port, the clock, and the outcome of the
`wait_healthy` poll loop for a given port (lines 73-85; `true` iff some
probe within the timeout returned HTTP 200). -/
structure Env where
  portFree : Nat → Bool
  pid : Nat → Nat
  now : Nat
  healthOk : Nat → Bool

/-- `inst.process.poll() is None` — the instance's process is running. -/
def instance_running (inst : Instance) : Bool := inst.poll.isNone

/-- Insert one key into a list already sorted by key (helper for
`sortByKey`). -/
def insertSorted (x : Nat × Instance) : Registry → Registry
  | [] => [x]
  | y :: ys => if x.1 ≤ y.1 then x :: y :: ys else y :: insertSorted x ys

/-- Python's `sorted(instances.items())`: the registry's entries sorted
ascending by port (keys are unique, so tuple comparison is decided by the
key). -/
def sortByKey : Registry → Registry
  | [] => []
  | x :: xs => insertSorted x (sortByKey xs)

/-- Python dict assignment `instances[port] = inst`: replace the entry in
place if the key is present (keys are unique), else append at the end. -/
def dictInsert : Registry → Nat → Instance → Registry
  | [], p, inst => [(p, inst)]
  | e :: t, p, inst => if e.1 = p then (p, inst) :: t else e :: dictInsert t p inst

/-- One record of the discovery payload: `{"labels": {"job": "inventory"},
"targets": [...]}` — the label map is fixed, so only its `job` value is
carried. -/
structure SdRecord where
  job : String
  targets : List String
deriving DecidableEq

/-- Embedding of `_sd_payload` (process_manager.py lines 231-240):
`targets = [f"localhost:{p}" for p, inst in sorted(instances.items()) if
inst.process.poll() is None]`, wrapped in a single labelled record. -/
def sd_payload (reg : Registry) : List SdRecord :=
  [{ job := "inventory",
     targets := (sortByKey reg).filterMap
       (fun e => if e.2.poll = none then some ("localhost:" ++ toString e.1) else none) }]

/-- Embedding of the `/healthz` handler (process_manager.py lines 117-119):
`{"ok": True, "instances": len(instances)}`. -/
structure HealthzResp where
  ok : Bool
  instances : Nat
deriving DecidableEq

/-- `healthz` counts every tracked registry entry, running or not. -/
def healthz (reg : Registry) : HealthzResp :=
  { ok := true, instances := reg.length }

/-- Embedding of the `/backends` handler (process_manager.py lines
131-136): base URLs of the running instances, sorted by port. -/
def backends_endpoint (reg : Registry) : List String :=
  (sortByKey reg).filterMap
    (fun e => if e.2.poll = none then some ("http://127.0.0.1:" ++ toString e.1) else none)

/-- Embedding of `pick_next_port` (process_manager.py lines 46-53): scan
`range(BASE_PORT, MAX_PORT+1)` for the first port that is not a registry
key (`busy = set(instances.keys())` — all tracked keys, exited included)
and whose OS probe reports it free; `none` models the `RuntimeError`
raised when the scan finds nothing.  The source probes `port_free(p)`
twice in a row; with the probe held fixed in `Env` the second probe is
redundant, so a single conjunct is faithful. -/
def pick_next_port (reg : Registry) (env : Env) : Option Nat :=
  ((List.range (MAX_PORT + 1 - BASE_PORT)).map (fun i => BASE_PORT + i)).find?
    (fun p => (reg.lookup p).isNone && env.portFree p)

/-- Embedding of `spawn_instance` (process_manager.py lines 61-71): raises
(`none`) if the port probe says the port is not free, else creates the
`Instance` record — pid from the spawned process, service name
`f"inv{port-BASE_PORT+1}"`, `started_at = time.time()`, and a fresh
(running) process handle, i.e. `poll = none`.  The log-file plumbing is an
external collaborator and has no registry-visible effect. -/
def spawn_instance (env : Env) (port : Nat) : Option Instance :=
  if env.portFree port then
    some { port := port, pid := env.pid port,
           service := "inv" ++ toString (port - BASE_PORT + 1),
           started_at := env.now, poll := none }
  else none

/-- Errors of the `/start` handler: `portInUse` is the HTTP 409, the other
two model the `RuntimeError`s of `pick_next_port` and `spawn_instance`
escaping as HTTP 500. -/
inductive StartError where
  | portInUse
  | noFreePorts
  | spawnFailed
deriving DecidableEq

/-- Response body of a successful `/start`:
`{"ok": ok, "port": port, "url": f"http://127.0.0.1:{port}"}`. -/
structure StartResp where
  ok : Bool
  port : Nat
  url : String
deriving DecidableEq

/-- Embedding of the `/start` handler (process_manager.py lines 138-150).
Result: the registry after the call, the payload written by
`write_sd_file` (`none` when the handler raises before reaching it), and
the response or error.

```
port = req.port or pick_next_port()          # `or`: 0/None fall through
if port in instances and instances[port].process.poll() is None:
    raise HTTPException(409, ...)
inst = spawn_instance(port)
instances[port] = inst
ok = await wait_healthy(port)
write_sd_file()
return {"ok": ok, "port": port, "url": f"http://127.0.0.1:{port}"}
``` -/
def start (reg : Registry) (reqPort : Option Nat) (env : Env) :
    Registry × Option (List SdRecord) × Except StartError StartResp :=
  let portR : Option Nat :=
    match reqPort with
    | some p => if p = 0 then pick_next_port reg env else some p
    | none => pick_next_port reg env
  match portR with
  | none => (reg, none, Except.error StartError.noFreePorts)
  | some port =>
    if (reg.lookup port).any instance_running then
      (reg, none, Except.error StartError.portInUse)
    else
      match spawn_instance env port with
      | none => (reg, none, Except.error StartError.spawnFailed)
      | some inst =>
        let reg2 := dictInsert reg port inst
        (reg2, some (sd_payload reg2),
          Except.ok { ok := env.healthOk port, port := port,
                      url := "http://127.0.0.1:" ++ toString port })

/-- Request body of `/stop`: optional port, optional pid. -/
structure StopReq where
  port : Option Nat
  pid : Option Nat

/-- Error of the `/stop` handler: the HTTP 404. -/
inductive StopError where
  | notFound
deriving DecidableEq

/-- Response body of a successful `/stop`:
`{"ok": True, "stopped_port": port}`. -/
structure StopResp where
  ok : Bool
  stopped_port : Nat
deriving DecidableEq

/-- Embedding of the `/stop` handler (process_manager.py lines 153-169).
Target resolution follows the source exactly: an explicit `port` takes
priority (looked up as a key), else the first instance in dict insertion
order with the given pid, else no target; no target raises 404 with the
registry untouched.  `graceful_stop` only signals the OS process, then
`instances.pop(target.port, None)` removes the entry (keys are unique, so
filtering out the key is the same removal). -/
def stop (reg : Registry) (req : StopReq) :
    Registry × Option (List SdRecord) × Except StopError StopResp :=
  let target : Option Instance :=
    match req.port with
    | some p => reg.lookup p
    | none =>
      match req.pid with
      | some pd => (reg.find? (fun e => e.2.pid == pd)).map (fun e => e.2)
      | none => none
  match target with
  | none => (reg, none, Except.error StopError.notFound)
  | some inst =>
    let reg2 := reg.filter (fun e => e.1 != inst.port)
    (reg2, some (sd_payload reg2), Except.ok { ok := true, stopped_port := inst.port })

/-- Errors of the `/scale` handler: `capacityExceeded` is the HTTP 400;
`noFreePorts` the `RuntimeError` of `pick_next_port` escaping while
building `to_start`; `typeErrorListNotCallable` models the `TypeError`
raised by line 205, `for p in to_stop():`, which calls the list
`to_stop` as if it were a function — this line is reached by every
`scale` request that survives the earlier checks, so it raises
unconditionally. -/
inductive ScaleError where
  | capacityExceeded
  | noFreePorts
  | typeErrorListNotCallable
deriving DecidableEq

/-- Response body that line 214 would return:
`{"ok": True, "started": started, "stopped": stopped, "replicas":
req.replicas}`.  Declared for the claims that talk about it; the handler
never reaches the `return`. -/
structure ScaleResult where
  ok : Bool
  started : List Nat
  stopped : List Nat
  replicas : Nat
deriving DecidableEq

/-- The scale-down selection (process_manager.py lines 185-188):
`extra = current - req.replicas; to_stop = list(reversed(running_ports))[:extra]`. -/
def scale_to_stop (running_ports : List Nat) (replicas : Nat) : List Nat :=
  running_ports.reverse.take (running_ports.length - replicas)

/-- The scale-up port pre-selection (process_manager.py lines 180-184):
`need` iterations of `to_start.append(pick_next_port())` against the
unchanged registry; a `RuntimeError` from `pick_next_port` escapes the
handler (`none`). -/
def build_to_start (reg : Registry) (env : Env) : Nat → Option (List Nat)
  | 0 => some []
  | n + 1 =>
    match pick_next_port reg env with
    | none => none
    | some p => (build_to_start reg env n).map (fun ps => p :: ps)

/-- The scale-up execution loop (process_manager.py lines 191-203): for
each pre-selected port, re-check the OS probe under the lock, re-pick on
conflict (`continue` when re-picking raises `RuntimeError`), spawn,
register, wait for health (result discarded by the source), and append to
`started`.  With the port probe held fixed in `Env`, a port that passes
the probe also passes `spawn_instance`'s identical probe, so spawning
cannot raise here. -/
def scale_start_loop (env : Env) : Registry → List Nat → Registry × List Nat
  | reg, [] => (reg, [])
  | reg, p :: rest =>
    if env.portFree p then
      match spawn_instance env p with
      | none => scale_start_loop env reg rest
      | some inst =>
        let reg2 := dictInsert reg p inst
        let res := scale_start_loop env reg2 rest
        (res.1, p :: res.2)
    else
      match pick_next_port reg env with
      | none => scale_start_loop env reg rest
      | some q =>
        match spawn_instance env q with
        | none => scale_start_loop env reg rest
        | some inst =>
          let reg2 := dictInsert reg q inst
          let res := scale_start_loop env reg2 rest
          (res.1, q :: res.2)

/-- Embedding of the `/scale` handler (process_manager.py lines 172-214).
Result: registry after the call, payload written by `write_sd_file`
(`none` when the handler raises before line 213 — which is always, see
`ScaleError.typeErrorListNotCallable`), and the response or error.
`running_ports` is computed from `sorted(instances.items())` filtered to
live processes; the scale-down selection `scale_to_stop` is computed but
its iteration (`for p in to_stop():`) raises `TypeError` before stopping
anything, and on the scale-up path the same line raises after the start
loop has already mutated the registry. -/
def scale (reg : Registry) (replicas : Nat) (env : Env) :
    Registry × Option (List SdRecord) × Except ScaleError ScaleResult :=
  if MAX_PORT - BASE_PORT + 1 < replicas then
    (reg, none, Except.error ScaleError.capacityExceeded)
  else
    let running_ports := (sortByKey reg).filterMap
      (fun e => if e.2.poll = none then some e.1 else none)
    let current := running_ports.length
    if current < replicas then
      match build_to_start reg env (replicas - current) with
      | none => (reg, none, Except.error ScaleError.noFreePorts)
      | some to_start =>
        let res := scale_start_loop env reg to_start
        (res.1, none, Except.error ScaleError.typeErrorListNotCallable)
    else
      let _to_stop := if replicas < current then scale_to_stop running_ports replicas else []
      (reg, none, Except.error ScaleError.typeErrorListNotCallable)

/-! ## Concrete fixtures used by witnesses and counterexamples -/

/-- An environment in which every OS port probe reports free, the OS
assigns pid = port, the clock reads 0 and every health poll succeeds. -/
def envAllFree : Env :=
  { portFree := fun _ => true, pid := fun p => p, now := 0, healthOk := fun _ => true }

/-- Like `envAllFree` but every health poll times out without a 200. -/
def envNoHealth : Env :=
  { portFree := fun _ => true, pid := fun p => p, now := 0, healthOk := fun _ => false }

/-- A running instance on the given port. -/
def runInst (p pd : Nat) : Instance :=
  { port := p, pid := pd, service := "inv" ++ toString (p - BASE_PORT + 1),
    started_at := 0, poll := none }

/-- An exited instance (return code 1) on the given port. -/
def exitedInst (p pd : Nat) : Instance :=
  { port := p, pid := pd, service := "inv" ++ toString (p - BASE_PORT + 1),
    started_at := 0, poll := some 1 }

/-- Registry with one running instance on 8001. -/
def regOne : Registry := [(8001, runInst 8001 11)]

/-- Registry with running instances on 8001, 8002, 8003. -/
def regThree : Registry :=
  [(8001, runInst 8001 11), (8002, runInst 8002 12), (8003, runInst 8003 13)]

/-- Registry with a running instance on 8001 and an exited one on 8002. -/
def regMixed : Registry := [(8001, runInst 8001 11), (8002, exitedInst 8002 12)]

/-! ## Helper lemmas -/

/-- On a non-empty backend list `pick_primary_and_alt` never raises: it
returns the element at the cursor modulo the length, the alternate at the
advanced cursor when the list has more than one element, and the cursor
advanced exactly once. -/
theorem pick_primary_and_alt_ok (b : List String) (hk : 0 < b.length) (c : Nat) :
    pick_primary_and_alt b c =
      Except.ok (b[c % b.length]!,
        (if 1 < b.length then some (b[(c + 1) % b.length]!) else none),
        (c + 1) % b.length) := by
  have h0 : ¬ b.length = 0 := Nat.pos_iff_ne_zero.mp hk
  simp only [pick_primary_and_alt, if_neg h0]
  rw [Nat.mod_mod_of_dvd (c + 1) dvd_rfl]

/-- The primaries of `N` sequential picks from cursor `c0` over a fixed
non-empty list are the elements at indices `(c0 + i) % length`,
`i = 0, ..., N-1`, in order. -/
theorem run_picks_primaries (b : List String) (hk : 0 < b.length) (N c0 : Nat) :
    (run_picks b c0 N).1
      = (List.range N).map (fun i => b[(c0 + i) % b.length]!) := by
  induction N generalizing c0 with
  | zero => simp [run_picks]
  | succ N ih =>
    rw [List.range_succ_eq_map, List.map_cons, List.map_map]
    simp only [run_picks, pick_primary_and_alt_ok b hk c0]
    rw [ih ((c0 + 1) % b.length)]
    refine congrArg₂ List.cons (by rw [Nat.add_zero]) ?_
    refine List.map_congr_left (fun i _ => ?_)
    rw [Nat.mod_add_mod]
    have h1 : c0 + 1 + i = c0 + Nat.succ i := by omega
    rw [h1]
    rfl

/-- The final cursor after `N` sequential picks from `c0` over a fixed
non-empty list of length `k` is `c0` for `N = 0` and `(c0 + N) % k`
afterwards. -/
theorem run_picks_cursor (b : List String) (hk : 0 < b.length) (N c0 : Nat)
    (hN : 0 < N) : (run_picks b c0 N).2 = (c0 + N) % b.length := by
  induction N generalizing c0 with
  | zero => omega
  | succ N ih =>
    simp only [run_picks, pick_primary_and_alt_ok b hk c0]
    rcases Nat.eq_zero_or_pos N with h | h
    · subst h
      simp [run_picks]
    · rw [ih ((c0 + 1) % b.length) h, Nat.mod_add_mod]
      have h1 : c0 + 1 + N = c0 + (N + 1) := by omega
      rw [h1]

/-- After a dict assignment, looking up the assigned key yields the
assigned value. -/
theorem lookup_dictInsert (reg : Registry) (p : Nat) (inst : Instance) :
    (dictInsert reg p inst).lookup p = some inst := by
  induction reg with
  | nil => simp [dictInsert, List.lookup]
  | cons e t ih =>
    obtain ⟨k, v⟩ := e
    by_cases h : k = p
    · subst h
      simp [dictInsert, List.lookup]
    · have hbeq : (p == k) = false := by
        simp [Ne.symm h]
      simp [dictInsert, h, List.lookup, hbeq, ih]

/-- Evaluation of `/start` with an explicit free, not-in-use port: the
spawned instance is registered, the discovery payload of the new registry
is written, and the response carries the health-poll outcome. -/
theorem start_explicit_ok (reg : Registry) (p : Nat) (env : Env)
    (hp : p ≠ 0)
    (hnr : (reg.lookup p).any instance_running = false)
    (hfree : env.portFree p = true) :
    start reg (some p) env =
      (dictInsert reg p
        { port := p, pid := env.pid p,
          service := "inv" ++ toString (p - BASE_PORT + 1),
          started_at := env.now, poll := none },
       some (sd_payload (dictInsert reg p
        { port := p, pid := env.pid p,
          service := "inv" ++ toString (p - BASE_PORT + 1),
          started_at := env.now, poll := none })),
       Except.ok { ok := env.healthOk p, port := p,
                   url := "http://127.0.0.1:" ++ toString p }) := by
  simp [start, spawn_instance, hp, hnr, hfree]

/-! ## Claim theorems -/

/-- Claim C1: for a fixed non-empty backend list of size `k` and any `N`
sequential `pick_primary_and_alt` calls from cursor `c0`, the primaries
are `backends[(c0 + i) % k]` for `i = 0, ..., N-1` — a gapless round-robin
cycle repeating every `k` calls — and each call returns the shared cursor
advanced exactly once (the alternate is computed from the advanced cursor
without advancing it again). -/
theorem round_robin_gapless (backends : List String) (hk : 0 < backends.length)
    (c0 N : Nat) :
    (run_picks backends c0 N).1
      = (List.range N).map (fun i => backends[(c0 + i) % backends.length]!)
    ∧ ∀ c : Nat, pick_primary_and_alt backends c
        = Except.ok (backends[c % backends.length]!,
            (if 1 < backends.length
              then some (backends[(c + 1) % backends.length]!) else none),
            (c + 1) % backends.length) :=
  ⟨run_picks_primaries backends hk N c0,
   fun c => pick_primary_and_alt_ok backends hk c⟩

/-- Witness for C1: three backends, cursor 1, five calls — the primaries
cycle `b, c, a, b, c` with no gap or repeat within a cycle. -/
theorem round_robin_gapless_witness :
    0 < (["a", "b", "c"] : List String).length
  ∧ (run_picks ["a", "b", "c"] 1 5).1 = ["b", "c", "a", "b", "c"]
  ∧ ((run_picks ["a", "b", "c"] 1 5).1
      = (List.range 5).map (fun i => (["a", "b", "c"] : List String)[(1 + i) % (["a", "b", "c"] : List String).length]!)
    ∧ ∀ c : Nat, pick_primary_and_alt ["a", "b", "c"] c
        = Except.ok ((["a", "b", "c"] : List String)[c % (["a", "b", "c"] : List String).length]!,
            (if 1 < (["a", "b", "c"] : List String).length
              then some ((["a", "b", "c"] : List String)[(c + 1) % (["a", "b", "c"] : List String).length]!) else none),
            (c + 1) % (["a", "b", "c"] : List String).length)) :=
  ⟨by decide, rfl, round_robin_gapless ["a", "b", "c"] (by decide) 1 5⟩

/-- Counterexample to claim C2 as stated: on an empty backend list
`pick_primary_and_alt` raises the division-by-zero of `__rr_idx % 0`, not
the `NoBackendsAvailable` error the specification names. -/
theorem empty_backends_not_noBackendsAvailable :
    pick_primary_and_alt [] 0 = Except.error RouterError.zeroDivisionError
  ∧ ¬ pick_primary_and_alt [] 0 = Except.error RouterError.noBackendsAvailable := by
  constructor
  · rfl
  · simp [pick_primary_and_alt]

/-- Claim C2 amended: whenever the router's current backend list is empty,
`pick_primary_and_alt` fails with a division-by-zero error (Python's
`ZeroDivisionError` from the modulo by the list length) — there is no
empty-list check and `NoBackendsAvailable` is never signalled. -/
theorem empty_backends_division_by_zero :
    ∀ c : Nat, pick_primary_and_alt [] c = Except.error RouterError.zeroDivisionError :=
  fun _ => rfl

/-- Claim C5: a refresher tick leaves the router's backend list unchanged
on a failed poll (exception), on any non-200 status, on a body without a
backend list, and on an empty backend list; only a 200 response with a
non-empty list replaces the list — and then wholesale. -/
theorem refresh_keeps_list_on_failure (cur : List String) :
    refresh_tick cur PollOutcome.failure = cur
  ∧ (∀ (s : Nat) (b : Option (List String)), s ≠ 200 →
      refresh_tick cur (PollOutcome.response s b) = cur)
  ∧ (∀ s : Nat, refresh_tick cur (PollOutcome.response s none) = cur)
  ∧ refresh_tick cur (PollOutcome.response 200 (some [])) = cur
  ∧ (∀ bs : List String, bs ≠ [] →
      refresh_tick cur (PollOutcome.response 200 (some bs)) = bs) := by
  refine ⟨rfl, fun s b hs => ?_, fun s => ?_, rfl, fun bs hbs => ?_⟩
  · simp [refresh_tick, hs]
  · simp [refresh_tick]
  · simp [refresh_tick, hbs]

/-- Witness for C5: a stale list survives a 500 response and an empty
200 response, and is swapped wholesale by a non-empty 200 response. -/
theorem refresh_keeps_list_on_failure_witness :
    ((500 : Nat) ≠ 200
      ∧ refresh_tick ["u"] (PollOutcome.response 500 (some ["v"])) = ["u"])
  ∧ refresh_tick ["u"] (PollOutcome.response 200 (some [])) = ["u"]
  ∧ ((["v", "w"] : List String) ≠ []
      ∧ refresh_tick ["u"] (PollOutcome.response 200 (some ["v", "w"])) = ["v", "w"]) :=
  ⟨⟨by decide, (refresh_keeps_list_on_failure ["u"]).2.1 500 (some ["v"]) (by decide)⟩,
   (refresh_keeps_list_on_failure ["u"]).2.2.2.1,
   ⟨by decide, (refresh_keeps_list_on_failure ["u"]).2.2.2.2 ["v", "w"] (by decide)⟩⟩

/-- Claim C3 (code bug): the scale-down selection does compute the
highest-numbered running ports first — `[8003, 8002]` for running ports
`[8001, 8002, 8003]` and `desired = 1` — but the call never returns that
result: line 205, `for p in to_stop():`, calls the list and raises
`TypeError` before any instance is stopped, so the registry keeps all
three instances and the handler fails. -/
theorem scale_down_crashes_before_stopping :
    scale_to_stop [8001, 8002, 8003] 1 = [8003, 8002]
  ∧ scale regThree 1 envAllFree
      = (regThree, none, Except.error ScaleError.typeErrorListNotCallable) :=
  ⟨rfl, rfl⟩

/-- Claim C4 (code bug): a scale-up from the empty registry to one
replica registers the new instance on port 8001 but raises the `TypeError`
of line 205 before reaching `write_sd_file`, so no discovery payload is
written (`none`) even though the registry was mutated; the payload that
should have been written is the one-record running-target set shown in the
second conjunct.  `/start` and `/stop` do reach their `write_sd_file`. -/
theorem scale_up_mutates_without_publish :
    scale [] 1 envAllFree
      = ([(8001, { port := 8001, pid := 8001, service := "inv1",
                   started_at := 0, poll := none })],
         none, Except.error ScaleError.typeErrorListNotCallable)
  ∧ sd_payload [(8001, { port := 8001, pid := 8001, service := "inv1",
                         started_at := 0, poll := none })]
      = [{ job := "inventory", targets := ["localhost:8001"] }] :=
  ⟨rfl, rfl⟩

/-- Claim C6: a `/start` on an explicit port that registers a running
instance, immediately followed by a second `/start` on the same port with
no intervening stop, makes the second call fail with the 409 `PortInUse`
error, write nothing, and leave the registry exactly as the first call
left it. -/
theorem start_twice_port_in_use (reg : Registry) (p : Nat) (env env2 : Env)
    (hp : p ≠ 0)
    (hnr : (reg.lookup p).any instance_running = false)
    (hfree : env.portFree p = true) :
    (start reg (some p) env).2.2
      = Except.ok { ok := env.healthOk p, port := p,
                    url := "http://127.0.0.1:" ++ toString p }
  ∧ start (start reg (some p) env).1 (some p) env2
      = ((start reg (some p) env).1, none, Except.error StartError.portInUse) := by
  have h1 := start_explicit_ok reg p env hp hnr hfree
  constructor
  · rw [h1]
  · rw [h1]
    have h2 := lookup_dictInsert reg p
      { port := p, pid := env.pid p,
        service := "inv" ++ toString (p - BASE_PORT + 1),
        started_at := env.now, poll := none }
    simp [start, hp, h2, instance_running]

/-- Witness for C6: starting twice on port 8001 from the empty registry. -/
theorem start_twice_port_in_use_witness :
    ((8001 : Nat) ≠ 0
      ∧ ((([] : Registry).lookup 8001).any instance_running = false)
      ∧ envAllFree.portFree 8001 = true)
  ∧ ((start [] (some 8001) envAllFree).2.2
      = Except.ok { ok := envAllFree.healthOk 8001, port := 8001,
                    url := "http://127.0.0.1:" ++ toString 8001 }
    ∧ start (start [] (some 8001) envAllFree).1 (some 8001) envAllFree
      = ((start [] (some 8001) envAllFree).1, none,
         Except.error StartError.portInUse)) :=
  ⟨⟨by decide, rfl, rfl⟩,
   start_twice_port_in_use [] 8001 envAllFree envAllFree (by decide) rfl rfl⟩

/-- Claim C7: a `/start` whose spawn succeeds but whose health poll times
out (no successful probe within the timeout) keeps the instance registered
— no rollback — and still returns a success response whose `ok` flag is
`false` alongside the port and url. -/
theorem start_health_timeout_no_rollback (reg : Registry) (p : Nat) (env : Env)
    (hp : p ≠ 0)
    (hnr : (reg.lookup p).any instance_running = false)
    (hfree : env.portFree p = true)
    (hhealth : env.healthOk p = false) :
    ((start reg (some p) env).1).lookup p
      = some { port := p, pid := env.pid p,
               service := "inv" ++ toString (p - BASE_PORT + 1),
               started_at := env.now, poll := none }
  ∧ (start reg (some p) env).2.2
      = Except.ok { ok := false, port := p,
                    url := "http://127.0.0.1:" ++ toString p } := by
  have h1 := start_explicit_ok reg p env hp hnr hfree
  constructor
  · rw [h1]
    exact lookup_dictInsert reg p _
  · rw [h1, hhealth]

/-- Witness for C7: starting port 8002 from the empty registry in an
environment where every health poll times out. -/
theorem start_health_timeout_no_rollback_witness :
    ((8002 : Nat) ≠ 0
      ∧ ((([] : Registry).lookup 8002).any instance_running = false)
      ∧ envNoHealth.portFree 8002 = true
      ∧ envNoHealth.healthOk 8002 = false)
  ∧ (((start [] (some 8002) envNoHealth).1).lookup 8002
      = some { port := 8002, pid := envNoHealth.pid 8002,
               service := "inv" ++ toString (8002 - BASE_PORT + 1),
               started_at := envNoHealth.now, poll := none }
    ∧ (start [] (some 8002) envNoHealth).2.2
      = Except.ok { ok := false, port := 8002,
                    url := "http://127.0.0.1:" ++ toString 8002 }) :=
  ⟨⟨by decide, rfl, rfl, rfl⟩,
   start_health_timeout_no_rollback [] 8002 envNoHealth (by decide) rfl rfl rfl⟩

/-- Claim C8: a `/stop` whose port matches no registry key and whose pid
(when the port is absent) matches no tracked instance returns the 404
`NotFound` error, writes nothing, and returns the registry unchanged. -/
theorem stop_unknown_not_found (reg : Registry) (req : StopReq)
    (hport : ∀ p, req.port = some p → reg.lookup p = none)
    (hpid : req.port = none → ∀ pd, req.pid = some pd →
      reg.find? (fun e => e.2.pid == pd) = none) :
    stop reg req = (reg, none, Except.error StopError.notFound) := by
  obtain ⟨po, pi⟩ := req
  cases po with
  | some p =>
    have h := hport p rfl
    simp [stop, h]
  | none =>
    cases pi with
    | some pd =>
      have h := hpid rfl pd rfl
      simp [stop, h]
    | none => simp [stop]

/-- Witness for C8: stopping port 9999 against a registry holding only
port 8001 returns `NotFound` and the unchanged registry. -/
theorem stop_unknown_not_found_witness :
    List.lookup 9999 regOne = none
  ∧ stop regOne { port := some 9999, pid := none }
      = (regOne, none, Except.error StopError.notFound) :=
  ⟨rfl,
   stop_unknown_not_found regOne { port := some 9999, pid := none }
     (by intro p h; cases h; rfl)
     (fun h => Option.noConfusion h)⟩

/-- Claim C9: the orchestrator's `/healthz` reports the number of all
tracked registry entries — on a registry with a running instance on 8001
and an exited one on 8002 it reports 2, while the running-only `/backends`
feed exposes just the one live instance. -/
theorem healthz_counts_all_tracked :
    (∀ reg : Registry, healthz reg = { ok := true, instances := reg.length })
  ∧ healthz regMixed = { ok := true, instances := 2 }
  ∧ backends_endpoint regMixed = ["http://127.0.0.1:8001"] :=
  ⟨fun _ => rfl, rfl, rfl⟩

/-- Claim C10 (code bug): `/scale` never produces the result of line 214
(whose `replicas` field would echo the request verbatim): every call that
passes the capacity check still raises — either a `RuntimeError` while
picking ports, or, on every path that completes the bookkeeping, the
`TypeError` of line 205 (`for p in to_stop():` calls a list), so no
`ScaleResult` is ever returned. -/
theorem scale_never_returns_result (reg : Registry) (replicas : Nat) (env : Env) :
    ∃ e, (scale reg replicas env).2.2 = Except.error e := by
  unfold scale
  split
  · exact ⟨_, rfl⟩
  · dsimp only
    split
    · split
      · exact ⟨_, rfl⟩
      · exact ⟨_, rfl⟩
    · exact ⟨_, rfl⟩

end OnCallAgent
